import Mathlib

/-!
Verification development for the image-generation plugin
(`main.py` and `utils/ttp.py`).  The definitions below are a shallow
embedding of the plugin code: JSON values, the credential
normalization, the key rotator, the request builders, the response
extractor, the image store, and the retry loop of
`generate_image_openai`.  Network and file-system effects are
abstracted by explicit oracles; everything else is translated directly
from the source.
-/

/-- Model of a parsed JSON value, as produced by `response.json()` in
`utils/ttp.py`.  Numbers are modelled as integers (no claim involves a
fractional number). -/
inductive JVal where
  | null : JVal
  | bool : Bool → JVal
  | num : Int → JVal
  | str : String → JVal
  | arr : List JVal → JVal
  | obj : List (String × JVal) → JVal

/-- Python truthiness of a JSON value (`if x:`):  `None`, `False`, `0`,
empty string, empty list and empty dict are falsy. -/
def jtruthy : JVal → Bool
  | .null => false
  | .bool b => b
  | .num n => n != 0
  | .str s => s != ""
  | .arr xs => !xs.isEmpty
  | .obj fs => !fs.isEmpty

/-- Dictionary lookup on the field list of a JSON object, mirroring a
Python `dict` access (keys of parsed JSON objects are unique, so first
match suffices). -/
def jlookup : List (String × JVal) → String → Option JVal
  | [], _ => none
  | (k, v) :: t, key => if k = key then some v else jlookup t key

/-- Test used by Python `"k" in someList` membership: an element equals
the string `k` only when it is that string value. -/
def jIsStr (k : String) : JVal → Bool
  | .str s => s = k
  | _ => false

/-- Characters treated as whitespace by the regex class `\s` and by
`str.strip()` for the ASCII inputs this plugin handles. -/
def isPySpace (c : Char) : Bool :=
  c = ' ' || c = '\t' || c = '\n' || c = '\r' || c = '\x0b' || c = '\x0c'

/-- Python `str.strip()` on the whitespace characters above. -/
def pyStrip (s : String) : String :=
  ⟨((s.toList.dropWhile isPySpace).reverse.dropWhile isPySpace).reverse⟩

/-- Boolean prefix test on strings (Python `str.startswith`). -/
def strStartsWith (s p : String) : Bool :=
  p.toList.isPrefixOf s.toList

/-- Boolean substring test on character lists (Python `in` on strings). -/
def listContainsSub : List Char → List Char → Bool
  | hay, needle =>
    if needle.isPrefixOf hay then true
    else match hay with
      | [] => false
      | _ :: t => listContainsSub t needle

/-- Boolean substring test on strings. -/
def containsSubstr (hay needle : String) : Bool :=
  listContainsSub hay.toList needle.toList

/-- Split a character list at the first occurrence of `c`, mirroring
Python `s.split(c, 1)` when it yields two parts; `none` when `c` does
not occur (in which case the two-variable unpacking in the source
raises `ValueError`). -/
def splitAtFirst (c : Char) : List Char → Option (List Char × List Char)
  | [] => none
  | x :: xs =>
    if x = c then some ([], xs)
    else (splitAtFirst c xs).map (fun p => (x :: p.1, p.2))

/-- String wrapper for `splitAtFirst`. -/
def pySplit1 (s : String) (c : Char) : Option (String × String) :=
  (splitAtFirst c s.toList).map (fun p => (⟨p.1⟩, ⟨p.2⟩))

/-- Python `s.split(c)` (split on every occurrence of a one-character
separator). -/
def splitOnChar (c : Char) : List Char → List (List Char)
  | [] => [[]]
  | x :: xs =>
    let r := splitOnChar c xs
    if x = c then [] :: r
    else match r with
      | h :: t => (x :: h) :: t
      | [] => [[x]]

/-- Part of a string before the first `;`, used for
`header.split("/")[1].split(";")[0]`. -/
def beforeSemi (s : String) : String :=
  ⟨s.toList.takeWhile (fun c => c != ';')⟩

/-- Parsing of a `data:` URL candidate, mirroring
`header, base64_part = candidate.split(",", 1)` followed by
`image_format = header.split("/")[1].split(";")[0]` in
`generate_image_openai`.  Returns `none` exactly when the source would
raise inside its local `try` (no comma, or no second `/`-segment),
which the source catches and logs, leaving the variables unassigned. -/
def parseDataUri (s : String) : Option (String × String) :=
  match pySplit1 s ',' with
  | none => none
  | some (header, rest) =>
    match (splitOnChar '/' header.toList).get? 1 with
    | none => none
    | some seg => some (beforeSemi ⟨seg⟩, rest)

/-- Character class `[a-zA-Z0-9.+-]` of `_DATA_URL_PATTERN`. -/
def isMimeChar (c : Char) : Bool :=
  c.isAlphanum || c = '.' || c = '+' || c = '-'

/-- Character class `[A-Za-z0-9+/=]` of `_DATA_URL_PATTERN`. -/
def isB64Char (c : Char) : Bool :=
  c.isAlphanum || c = '+' || c = '/' || c = '='

/-- Attempt to match `_DATA_URL_PATTERN`
(`data:image/[a-zA-Z0-9.+-]+;base64,[A-Za-z0-9+/=]+`) at the start of
the character list, returning the matched characters.  Both character
classes exclude `;` and `,`, so the greedy matching of the regex engine
is deterministic and needs no backtracking. -/
def matchDataUrlAt (cs : List Char) : Option (List Char) :=
  let pre := "data:image/".toList
  if pre.isPrefixOf cs then
    let rest := cs.drop pre.length
    let r1 := rest.takeWhile isMimeChar
    if r1.isEmpty then none
    else
      let rest2 := rest.drop r1.length
      let mid := ";base64,".toList
      if mid.isPrefixOf rest2 then
        let rest3 := rest2.drop mid.length
        let r2 := rest3.takeWhile isB64Char
        if r2.isEmpty then none
        else some (pre ++ r1 ++ mid ++ r2)
      else none
  else none

/-- Leftmost match of `_DATA_URL_PATTERN` (`re.search`). -/
def searchDataUrl : List Char → Option (List Char)
  | [] => none
  | c :: cs =>
    match matchDataUrlAt (c :: cs) with
    | some m => some m
    | none => searchDataUrl cs

/-- String wrapper for `searchDataUrl`. -/
def searchDataUrlS (s : String) : Option String :=
  (searchDataUrl s.toList).map (fun l => ⟨l⟩)

/-- Attempt to match `_HTTP_URL_PATTERN` (`https?://[^\s)]+`) at the
start of the character list.  The optional `s` only matches when
followed by `://`, so the match succeeds exactly when the list starts
with `https://` or `http://`; the tail is the maximal nonempty run of
characters that are neither whitespace nor `)`. -/
def matchHttpUrlAt (cs : List Char) : Option (List Char) :=
  let n : Nat :=
    if "https://".toList.isPrefixOf cs then 8
    else if "http://".toList.isPrefixOf cs then 7
    else 0
  if n = 0 then none
  else
    let rest := (cs.drop n).takeWhile (fun c => !(isPySpace c || c = ')'))
    if rest.isEmpty then none
    else some (cs.take n ++ rest)

/-- Leftmost match of `_HTTP_URL_PATTERN` (`re.search`). -/
def searchHttpUrl : List Char → Option (List Char)
  | [] => none
  | c :: cs =>
    match matchHttpUrlAt (c :: cs) with
    | some m => some m
    | none => searchHttpUrl cs

/-- String wrapper for `searchHttpUrl`. -/
def searchHttpUrlS (s : String) : Option String :=
  (searchHttpUrl s.toList).map (fun l => ⟨l⟩)

/-- Extraction state of `generate_image_openai`: the local variables
`image_url`, `image_format` and `base64_string`, initialized to
`None`, `"png"`, `None` at the start of the success branch. -/
structure Extracted where
  image_url : Option String
  image_format : String
  base64_string : Option String
deriving DecidableEq

/-- Python truthiness of the optional string variables (`if image_url:`
is false both for `None` and for an empty string). -/
def strTruthy : Option String → Bool
  | some s => if s = "" then false else true
  | none => false

/-- Extraction from a plain-string message content, lines 350-379 of
`utils/ttp.py`: strip, then (a) a literal `data:image/` prefix, (b) a
literal `http(s)://` prefix, (c) a `_DATA_URL_PATTERN` search, and
(d) a `_HTTP_URL_PATTERN` search, in this order. -/
def extractFromText (content : String) : Extracted :=
  let text := pyStrip content
  if strStartsWith text "data:image/" then
    match parseDataUri text with
    | some (f, b) => ⟨none, f, some b⟩
    | none => ⟨none, "png", none⟩
  else if strStartsWith text "http://" || strStartsWith text "https://" then
    ⟨some text, "png", none⟩
  else
    match searchDataUrlS text with
    | some cand =>
      match parseDataUri cand with
      | some (f, b) => ⟨none, f, some b⟩
      | none => ⟨none, "png", none⟩
    | none =>
      match searchHttpUrlS text with
      | some u => ⟨some u, "png", none⟩
      | none => ⟨none, "png", none⟩

/-- Candidate URL that an entry of a list-shaped message content
offers, lines 382-389 of `utils/ttp.py`: the entry must be a dict whose
`type` is `image_url` or `output_image`; `url_obj` is
`item.get("image_url") or item.get("url")`; when `url_obj` is a dict
the candidate is its `url` field, otherwise `url_obj` itself; the
candidate counts only when it is a nonempty string. -/
def itemCandidate (item : JVal) : Option String :=
  match item with
  | .obj fs =>
    let t := (jlookup fs "type").getD .null
    let typeOk :=
      match t with
      | .str s => s = "image_url" || s = "output_image"
      | _ => false
    if typeOk then
      let iu := (jlookup fs "image_url").getD .null
      let urlObj := if jtruthy iu then iu else (jlookup fs "url").getD .null
      let cand : JVal :=
        match urlObj with
        | .obj ufs => (jlookup ufs "url").getD .null
        | v => v
      match cand with
      | .str s => if s = "" then none else some s
      | _ => none
    else none
  | _ => none

/-- Whether an entry terminates the scan loop: the source executes
`break` exactly when the candidate is a nonempty string that does not
start with `data:image/`. -/
def itemBreaks (item : JVal) : Bool :=
  match itemCandidate item with
  | some c => !(strStartsWith c "data:image/")
  | none => false

/-- Scan of a list-shaped message content, lines 380-399 of
`utils/ttp.py`.  The state is the `(image_url, image_format,
base64_string)` variable triple; the returned flag records whether the
loop ended by `break`.  A data-URI candidate updates the format and
payload and the loop continues; a literal URL candidate sets
`image_url` and breaks. -/
def scanContentList : List JVal → Extracted → Extracted × Bool
  | [], st => (st, false)
  | item :: rest, st =>
    match itemCandidate item with
    | none => scanContentList rest st
    | some cand =>
      if strStartsWith cand "data:image/" then
        match parseDataUri cand with
        | some (f, b) =>
          scanContentList rest { st with image_format := f, base64_string := some b }
        | none => scanContentList rest st
      else ({ st with image_url := some cand }, true)

/-- Dispatch on the shape of `message.get("content")`, lines 349-399:
a string goes through the text rules, a list through the scan, and any
other shape leaves the extraction variables at their defaults. -/
def extractFromContent (content : JVal) : Extracted :=
  match content with
  | .str s => extractFromText s
  | .arr items => (scanContentList items ⟨none, "png", none⟩).1
  | _ => ⟨none, "png", none⟩

/-- Outcome of the `data[0]` fallback block, lines 401-408.  `keep`
carries the (possibly updated) extraction variables; `raiseF` marks a
shape on which the source raises (`TypeError`/`KeyError` on indexing or
membership), which the enclosing `except` turns into rotate-and-retry;
`badB64` marks a truthy non-string `b64_json` value, which
`save_base64_image` later rejects (its internal `except` catches the
decode `TypeError` and returns `False`), so that attempt falls through
to the terminal no-image return. -/
inductive FallbackResult where
  | keep : Extracted → FallbackResult
  | raiseF : FallbackResult
  | badB64 : FallbackResult
deriving DecidableEq

/-- Handling of `item0 = data["data"][0]`, lines 403-408: a dict is
probed for `url` then `b64_json`; `"url" in item0` on a string is a
substring test (followed by a raising string index when it succeeds);
on a list it is membership (followed by a raising list index); on any
other value the membership test itself raises. -/
def fallbackItem (x : JVal) (e : Extracted) : FallbackResult :=
  match x with
  | .obj fs =>
    match jlookup fs "url" with
    | some (.str s) => .keep { e with image_url := some s }
    | some v => if jtruthy v then .raiseF else .keep { e with image_url := none }
    | none =>
      match jlookup fs "b64_json" with
      | some (.str s) => .keep { e with base64_string := some s, image_format := "png" }
      | some v =>
        if jtruthy v then .badB64
        else .keep { e with base64_string := none, image_format := "png" }
      | none => .keep e
  | .str s =>
    if containsSubstr s "url" then .raiseF
    else if containsSubstr s "b64_json" then .raiseF
    else .keep e
  | .arr xs =>
    if xs.any (jIsStr "url") then .raiseF
    else if xs.any (jIsStr "b64_json") then .raiseF
    else .keep e
  | _ => .raiseF

/-- The `data[]`-style fallback, lines 401-408 of `utils/ttp.py`:
entered only when both extraction variables are falsy and the body has
a truthy `data` field.  Indexing `[0]` on a truthy string yields its
first character; on a truthy dict or number it raises. -/
def dataFallback (bfs : List (String × JVal)) (e : Extracted) : FallbackResult :=
  if strTruthy e.image_url then .keep e
  else if strTruthy e.base64_string then .keep e
  else
    match jlookup bfs "data" with
    | none => .keep e
    | some v =>
      if jtruthy v then
        match v with
        | .arr (x :: _) => fallbackItem x e
        | .str s =>
          match s.toList with
          | c :: _ => fallbackItem (.str ⟨[c]⟩) e
          | [] => .keep e
        | _ => .raiseF
      else .keep e

/-- Key selection of `ImageGeneratorState.get_next_api_key`
(lines 19-25 of `utils/ttp.py`): the key at `api_key_index mod
len(api_keys)`; `none` models the `ValueError` raised for an empty
list. -/
def get_next_api_key (api_keys : List String) (idx : Nat) : Option String :=
  if api_keys.isEmpty then none
  else api_keys.get? (idx % api_keys.length)

/-- Cursor update of `ImageGeneratorState.rotate_to_next_api_key`
(lines 27-32): increment modulo the length only when more than one key
is configured. -/
def rotate_to_next_api_key (api_keys : List String) (idx : Nat) : Nat :=
  if api_keys.length > 1 then (idx + 1) % api_keys.length else idx

/-- Shared mutable state of `ImageGeneratorState`: the rotation cursor
and the last saved image record `(url, path)`. -/
structure GState where
  apiKeyIndex : Nat
  lastSaved : Option String × Option String
deriving DecidableEq

/-- Outcome of one `session.post` with body parsing: a parsed status
and JSON body, a network error (`aiohttp.ClientError` /
`asyncio.TimeoutError`), or an unexpected exception. -/
inductive AttemptOutcome where
  | response : Nat → JVal → AttemptOutcome
  | netError : AttemptOutcome
  | exc : AttemptOutcome

/-- Outcome of the `session.get(image_url)` download together with the
subsequent directory/file writes: `ok` for status 200 and a successful
write, `badStatus` for a non-200 status (logged, falls through), and
`raiseErr` for an exception in the request or the write (caught by the
outer handlers). -/
inductive DlOutcome where
  | ok : DlOutcome
  | badStatus : DlOutcome
  | raiseErr : DlOutcome

/-- Oracles abstracting the network and the file system for one call of
`generate_image_openai`, indexed by the attempt number: the response to
the POST, the download outcome for a found remote URL, the
`(file_url, path)` pair a successful download produces, the success of
`save_base64_image`, and the record a successful save writes. -/
structure NetEnv where
  respond : Nat → AttemptOutcome
  download : Nat → String → DlOutcome
  downloadRecord : Nat → String → String × String
  saveOk : Nat → Bool
  saveRecord : Nat → String × String

/-- Result of one attempt: `done r` when the source returns `r` from
inside the loop body, `next` when control reaches the next iteration
(every such path also rotates the key, see lines 455, 462, 466). -/
inductive StepRes where
  | done : Option String × Option String → StepRes
  | next : StepRes
deriving DecidableEq

/-- Gate of the success branch, line 340:
`response.status == 200 and "choices" in data and data["choices"]`,
returning the truthy `choices` value.  For a non-dict body the `in`
test either raises (numbers, `None`, booleans; a string or list body
raises at the subsequent `data["choices"]` indexing when the membership
succeeds) or is false; both routes end in rotate-and-retry, which is
what `none` produces. -/
def successChoices (status : Nat) (body : JVal) : Option JVal :=
  if status = 200 then
    match body with
    | .obj fs =>
      match jlookup fs "choices" with
      | some v => if jtruthy v then some v else none
      | none => none
    | _ => none
  else none

/-- Persistence of a found inline payload, lines 436-442: when
`base64_string` is truthy, a successful `save_base64_image` updates the
shared record and the call returns `get_saved_image_info()`; on a save
failure, or when no payload was found, control reaches the terminal
`return None, None` of the success branch. -/
def persistB64 (env : NetEnv) (i : Nat) (st : GState) (e : Extracted) :
    StepRes × GState :=
  match e.base64_string with
  | some b =>
    if b = "" then (.done (none, none), st)
    else if env.saveOk i then
      let r := env.saveRecord i
      (.done (some r.1, some r.2), ⟨st.apiKeyIndex, (some r.1, some r.2)⟩)
    else (.done (none, none), st)
  | none => (.done (none, none), st)

/-- Persistence of a found remote URL, lines 411-434: a truthy
`image_url` is downloaded; status 200 with a successful write updates
the shared record and returns; a non-200 status is logged and control
falls through to the inline-payload block; an exception is caught by
the outer handlers (rotate and continue). -/
def persistPhase (env : NetEnv) (i : Nat) (st : GState) (e : Extracted) :
    StepRes × GState :=
  match e.image_url with
  | some u =>
    if u = "" then persistB64 env i st e
    else
      match env.download i u with
      | .ok =>
        let r := env.downloadRecord i u
        (.done (some r.1, some r.2), ⟨st.apiKeyIndex, (some r.1, some r.2)⟩)
      | .badStatus => persistB64 env i st e
      | .raiseErr => (.next, st)
  | none => persistB64 env i st e

/-- One iteration of the retry loop of `generate_image_openai`
(lines 316-466) after the key has been selected: POST, gate, extraction
(`choices[0].message.content`, with non-dict shapes raising into the
outer handlers), the `data[0]` fallback, and persistence.  Every path
that does not return maps to `.next`. -/
def attemptStep (env : NetEnv) (i : Nat) (st : GState) : StepRes × GState :=
  match env.respond i with
  | .netError => (.next, st)
  | .exc => (.next, st)
  | .response status body =>
    match successChoices status body with
    | none => (.next, st)
    | some choicesVal =>
      match choicesVal with
      | .arr (c :: _) =>
        match c with
        | .obj cfs =>
          match (jlookup cfs "message").getD (.obj []) with
          | .obj mfs =>
            let content := (jlookup mfs "content").getD .null
            match body with
            | .obj bfs =>
              match dataFallback bfs (extractFromContent content) with
              | .keep e => persistPhase env i st e
              | .raiseF => (.next, st)
              | .badB64 => (.done (none, none), st)
            | _ => (.next, st)
          | _ => (.next, st)
        | _ => (.next, st)
      | _ => (.next, st)

/-- The retry loop, lines 315-469: `i` is the attempt index, the second
argument the remaining attempts.  An empty key list makes
`get_next_api_key` raise inside the `try`, which the generic handler
turns into rotate-and-continue without a POST.  The returned pair of
numbers counts loop iterations taken and `rotate_to_next_api_key`
invocations. -/
def retryLoopAux (env : NetEnv) (keys : List String) :
    Nat → Nat → GState → (Option String × Option String) × GState × Nat × Nat
  | _, 0, st => ((none, none), st, 0, 0)
  | i, n + 1, st =>
    if keys.isEmpty then
      let st' : GState := ⟨rotate_to_next_api_key keys st.apiKeyIndex, st.lastSaved⟩
      let r := retryLoopAux env keys (i + 1) n st'
      (r.1, r.2.1, r.2.2.1 + 1, r.2.2.2 + 1)
    else
      match attemptStep env i st with
      | (.done res, st') => (res, st', 1, 0)
      | (.next, st') =>
        let st'' : GState := ⟨rotate_to_next_api_key keys st'.apiKeyIndex, st'.lastSaved⟩
        let r := retryLoopAux env keys (i + 1) n st''
        (r.1, r.2.1, r.2.2.1 + 1, r.2.2.2 + 1)

/-- Entry into the retry loop with attempt index 0. -/
def retryLoop (env : NetEnv) (keys : List String) (maxRetry : Nat) (st : GState) :
    (Option String × Option String) × GState × Nat × Nat :=
  retryLoopAux env keys 0 maxRetry st

/-- Python `repr()` on a JSON value, used by `str()` for every
non-string value (for strings, lists and dicts it is an approximation
sufficient for the scalar inputs the configuration can carry). -/
def pyRepr : JVal → String
  | .null => "None"
  | .bool true => "True"
  | .bool false => "False"
  | .num n => toString n
  | .str s => "\x27" ++ s ++ "\x27"
  | .arr xs =>
    "[" ++ String.intercalate ", " (xs.attach.map (fun x => pyRepr x.1)) ++ "]"
  | .obj fs =>
    "\x7b" ++
      String.intercalate ", "
        (fs.attach.map (fun p => "\x27" ++ p.1.1 ++ "\x27: " ++ pyRepr p.1.2)) ++
      "\x7d"
decreasing_by
  · have := List.sizeOf_lt_of_mem x.2
    simp_wf
    omega
  · obtain ⟨⟨a, b⟩, hp⟩ := p
    have := List.sizeOf_lt_of_mem hp
    simp_wf
    simp [Prod.mk.sizeOf_spec] at this
    omega

/-- Python `str()` on a JSON value: the identity on strings, `repr`
otherwise. -/
def pyStr : JVal → String
  | .null => "None"
  | .bool true => "True"
  | .bool false => "False"
  | .num n => toString n
  | .str s => s
  | .arr xs => pyRepr (.arr xs)
  | .obj fs => pyRepr (.obj fs)

/-- Shape of the `openai_api_key` configuration value passed to
`MyPlugin._normalize_api_keys` in `main.py`: `None`, a string, a list
of arbitrary values, or any other value (which falls past both
`isinstance` branches). -/
inductive KeyConfig where
  | nullCfg : KeyConfig
  | strCfg : String → KeyConfig
  | listCfg : List JVal → KeyConfig
  | otherCfg : KeyConfig

/-- Credential normalization, `MyPlugin._normalize_api_keys`
(lines 149-181 of `main.py`): `None` gives `[]`; a string is split on
commas, segments stripped, empty segments dropped; a list has `None`
elements skipped and the rest stringified and stripped, empty results
dropped; anything else gives `[]`. -/
def _normalize_api_keys : KeyConfig → List String
  | .nullCfg => []
  | .strCfg s =>
    ((splitOnChar ',' s.toList).map (fun part => pyStrip ⟨part⟩)).filter
      (fun k => k ≠ "")
  | .listCfg items =>
    items.filterMap (fun item =>
      match item with
      | .null => none
      | v =>
        let k := pyStrip (pyStr v)
        if k = "" then none else some k)
  | .otherCfg => []

/-- Shape of the `api_key` argument of `generate_image_openai`: a list
of arbitrary values or a single non-list value. -/
inductive ApiKeyArg where
  | list : List JVal → ApiKeyArg
  | single : JVal → ApiKeyArg

/-- Key-list normalization inside `generate_image_openai`
(lines 224-229 of `utils/ttp.py`).  Unlike `_normalize_api_keys`, a
list element that is `None` is stringified to `"None"` and kept; a
truthy non-list argument becomes a one-element list without an
emptiness filter. -/
def normalizeApiKeyArg : ApiKeyArg → List String
  | .list items =>
    (items.map (fun k => pyStrip (pyStr k))).filter (fun k => k ≠ "")
  | .single v => if jtruthy v then [pyStrip (pyStr v)] else []

/-- Python `x or default` for an optional string argument: the default
is used when the argument is absent or falsy (empty). -/
def orDefaultStr (o : Option String) (d : String) : String :=
  match o with
  | some s => if s = "" then d else s
  | none => d

/-- Python `str.rstrip("/")`. -/
def pyRstripSlash (s : String) : String :=
  ⟨(s.toList.reverse.dropWhile (fun c => c = '/')).reverse⟩

/-- ASCII lowering, Python `str.lower()` for the configuration values
in use. -/
def pyLower (s : String) : String :=
  ⟨s.toList.map Char.toLower⟩

/-- Target URL construction, lines 235-245 of `utils/ttp.py`: mode
`openai` appends the chat-completions suffix; otherwise a base URL
already containing `v1beta` is used as is, else the generateContent
path is appended with the model name. -/
def buildRequestUrl (mode : String) (api_base : Option String) (model : String) :
    String :=
  let base_url := pyRstripSlash (orDefaultStr api_base "https://api.openai.com")
  if mode = "openai" then base_url ++ "/v1/chat/completions"
  else if containsSubstr base_url "v1beta" then base_url
  else base_url ++ "/v1beta/models/" ++ model ++ ":generateContent"

/-- Fixed instruction text wrapped around the prompt in format A,
lines 253-256. -/
def instrPrefix : String :=
  "Generate an image based on the following description, and respond with either a direct image URL or a single data:image/*;base64,... string.\n\nDescription: "

/-- Instruction text embedding the prompt. -/
def instructionText (prompt : String) : String :=
  instrPrefix ++ prompt

/-- Entry of a format-A message content list: a text part or an
image-URL part (the source wraps the URL string as
`{"type": "image_url", "image_url": {"url": ...}}`). -/
inductive MsgEntry where
  | text : String → MsgEntry
  | imageUrl : String → MsgEntry
deriving DecidableEq

/-- Data-URI prefixing of a reference image payload, lines 262-263 and
292-293: payloads without a `data:image/` prefix get a
`data:image/png;base64,` prefix. -/
def mimeWrap (b : String) : String :=
  if strStartsWith b "data:image/" then b else "data:image/png;base64," ++ b

/-- The `message_content` list built for format A, lines 249-271: the
instruction text followed by one image entry per reference image. -/
def buildMessageContentA (prompt : String) (input_images : List String) :
    List MsgEntry :=
  .text (instructionText prompt) ::
    input_images.map (fun b => .imageUrl (mimeWrap b))

/-- The `content` field of the single user message in format A: the
plain instruction string when the list has exactly one entry (no
reference images), the list otherwise (lines 273-276). -/
inductive ContentField where
  | str : String → ContentField
  | list : List MsgEntry → ContentField
deriving DecidableEq

/-- Content-field selection of format A. -/
def content_fieldA (prompt : String) (input_images : List String) : ContentField :=
  let mc := buildMessageContentA prompt input_images
  if mc.length = 1 then .str (instructionText prompt) else .list mc

/-- Part of a format-B `contents` entry: a text part or an inline-data
part with a MIME type and a base64 payload (lines 289-301). -/
inductive PartB where
  | text : String → PartB
  | inlineData : String → String → PartB
deriving DecidableEq

/-- Python `s.split(",", 1)[-1]`: the remainder after the first comma,
or the whole string when there is none (line 298). -/
def afterFirstComma (s : String) : String :=
  match pySplit1 s ',' with
  | some (_, r) => r
  | none => s

/-- The `parts` list built for format B, lines 289-301: the raw prompt
text followed by one inline-data part per reference image, MIME type
fixed to `image/png`, payload with any data-URI prefix stripped. -/
def buildPartsB (prompt : String) (input_images : List String) : List PartB :=
  .text prompt ::
    input_images.map (fun b => .inlineData "image/png" (afterFirstComma (mimeWrap b)))

/-- Request payload of `generate_image_openai`, lines 247-311: format A
carries `messages` with a single user message whose content is
`content_fieldA`; format B carries `contents` with a single user entry
whose parts are `buildPartsB`. -/
inductive Payload where
  | chatMessages : String → ContentField → Payload
  | geminiContents : String → List PartB → Payload
deriving DecidableEq

/-- Payload selection by provider mode (`if mode == "openai"`). -/
def buildRequestPayload (mode prompt model : String) (input_images : List String) :
    Payload :=
  if mode = "openai" then .chatMessages model (content_fieldA prompt input_images)
  else .geminiContents model (buildPartsB prompt input_images)

/-- Oracles for the fallible steps of `save_base64_image`
(lines 104-158 of `utils/ttp.py`), in source order: the
`images_dir.mkdir` call (an exception is caught by the generic
handler), the `base64.b64decode` call, the `aiofiles` open/write, and
the `(file_url, path)` pair derived from the timestamp and UUID on
success.  `cleanup_old_images` catches all its exceptions internally
and is therefore not a failure source. -/
structure SaveEnv where
  mkdirOk : Bool
  decodeOk : Bool
  writeOk : Bool
  record : String × String

/-- The image store save, `save_base64_image`: any failing step returns
`False` via the handlers, leaving the shared record untouched;
`_state.update_saved_image` runs only after the bytes were written. -/
def save_base64_image (env : SaveEnv) (st : Option String × Option String) :
    Bool × (Option String × Option String) :=
  if env.mkdirOk = false then (false, st)
  else if env.decodeOk = false then (false, st)
  else if env.writeOk = false then (false, st)
  else (true, (some env.record.1, some env.record.2))

/-- The generation client, `generate_image_openai` (lines 194-469):
normalize the key argument, fail immediately without a network attempt
when no key remains, otherwise run the retry loop.  The request URL and
payload are built before the loop (their construction is modelled by
`buildRequestUrl` and `buildRequestPayload`; the oracles of `env`
abstract what the provider answers to them).  The `image_size`
parameter of the source is accepted and never used, and is omitted
here. -/
def generate_image_openai (env : NetEnv) (prompt : String) (api_key : ApiKeyArg)
    (model : String) (input_images : List String) (api_base : Option String)
    (api_format : Option String) (max_retry_attempts : Nat) (st : GState) :
    (Option String × Option String) × GState × Nat × Nat :=
  let mode := pyLower (orDefaultStr api_format "openai")
  let api_keys := normalizeApiKeyArg api_key
  if api_keys.isEmpty then ((none, none), st, 0, 0)
  else
    let _url := buildRequestUrl mode api_base model
    let _payload := buildRequestPayload mode prompt model input_images
    retryLoop env api_keys max_retry_attempts st

/-- An attempt whose POST fails in the sense of the retry policy: a
non-200 status, a network error, or an unexpected exception. -/
def attemptFailing (o : AttemptOutcome) : Prop :=
  o = .netError ∨ o = .exc ∨ ∃ s b, o = .response s b ∧ s ≠ 200

/-- Message fields of a response whose string content carries only a
remote URL. -/
def mfsUrl : List (String × JVal) := [("content", .str "https://example.com/cat.png")]

/-- Choice fields wrapping `mfsUrl`. -/
def cfsUrl : List (String × JVal) := [("message", .obj mfsUrl)]

/-- Body fields of a well-formed response whose only image reference is
the remote URL. -/
def bfsUrl : List (String × JVal) := [("choices", .arr [.obj cfsUrl])]

/-- Provider environment for the download-failure scenario: every
attempt answers 200 with `bfsUrl`, and every download of the extracted
URL comes back with a non-200 status. -/
def envDlFail : NetEnv where
  respond := fun _ => .response 200 (.obj bfsUrl)
  download := fun _ _ => .badStatus
  downloadRecord := fun _ _ => ("", "")
  saveOk := fun _ => true
  saveRecord := fun _ => ("", "")

/-- Message fields of a response whose string content is an inline
data-URI payload. -/
def mfsB64 : List (String × JVal) := [("content", .str "data:image/png;base64,AA==")]

/-- Choice fields wrapping `mfsB64`. -/
def cfsB64 : List (String × JVal) := [("message", .obj mfsB64)]

/-- Body fields of a well-formed response carrying only the inline
payload. -/
def bfsB64 : List (String × JVal) := [("choices", .arr [.obj cfsB64])]

/-- Provider environment for the save-failure scenario: every attempt
answers 200 with `bfsB64`, and `save_base64_image` reports failure. -/
def envSaveFail : NetEnv where
  respond := fun _ => .response 200 (.obj bfsB64)
  download := fun _ _ => .ok
  downloadRecord := fun _ _ => ("", "")
  saveOk := fun _ => false
  saveRecord := fun _ => ("", "")

/-- Body fields in the contents-style (format B) response shape: a
`candidates` list and no `choices` list. -/
def bfsCand : List (String × JVal) := [("candidates", .arr [.obj []])]

/-- Provider environment answering every attempt with 200 and the
candidates-only body. -/
def envCand : NetEnv where
  respond := fun _ => .response 200 (.obj bfsCand)
  download := fun _ _ => .ok
  downloadRecord := fun _ _ => ("", "")
  saveOk := fun _ => true
  saveRecord := fun _ => ("", "")

/-- Message fields of a well-formed response with no image reference at
all. -/
def mfsEmpty : List (String × JVal) := [("content", .str "no image data here")]

/-- Choice fields wrapping `mfsEmpty`. -/
def cfsEmpty : List (String × JVal) := [("message", .obj mfsEmpty)]

/-- Body fields of the well-formed empty response. -/
def bfsEmpty : List (String × JVal) := [("choices", .arr [.obj cfsEmpty])]

/-- Provider environment answering every attempt with 200 and the
well-formed empty body. -/
def envEmpty : NetEnv where
  respond := fun _ => .response 200 (.obj bfsEmpty)
  download := fun _ _ => .ok
  downloadRecord := fun _ _ => ("", "")
  saveOk := fun _ => true
  saveRecord := fun _ => ("", "")

/-- Provider environment answering every attempt with a plain 500
error body. -/
def env500 : NetEnv where
  respond := fun _ => .response 500 (.obj [])
  download := fun _ _ => .ok
  downloadRecord := fun _ _ => ("", "")
  saveOk := fun _ => true
  saveRecord := fun _ => ("", "")

/-- List-content entry whose declared type is an image reference and
whose URL is a data-URI with payload `AAAA`. -/
def itemData1 : JVal :=
  .obj [("type", .str "image_url"),
        ("image_url", .obj [("url", .str "data:image/png;base64,AAAA")])]

/-- Second data-URI entry, format `jpeg`, payload `BBBB`. -/
def itemData2 : JVal :=
  .obj [("type", .str "image_url"),
        ("image_url", .obj [("url", .str "data:image/jpeg;base64,BBBB")])]

/-- List-content entry carrying a literal remote URL. -/
def itemUrl1 : JVal :=
  .obj [("type", .str "output_image"),
        ("image_url", .str "https://a.example/img.png")]

/-- Image-store environment whose base64 decode step fails. -/
def saveEnvDecodeFail : SaveEnv := ⟨true, false, true, ("u", "p")⟩

/-- Initial shared state: cursor 0 and no saved image. -/
def st0 : GState := ⟨0, (none, none)⟩

/-- When both extraction variables are falsy, the persistence phase is
the terminal empty return of the success branch. -/
theorem persistPhase_noImage (env : NetEnv) (i : Nat) (st : GState) (e : Extracted)
    (hu : strTruthy e.image_url = false) (hb : strTruthy e.base64_string = false) :
    persistPhase env i st e = (.done (none, none), st) := by
  obtain ⟨u, f, b⟩ := e
  cases u with
  | some s =>
    by_cases hs : s = ""
    · subst hs
      cases b with
      | none => simp [persistPhase, persistB64]
      | some t =>
        by_cases ht : t = ""
        · subst ht; simp [persistPhase, persistB64]
        · simp [strTruthy, ht] at hb
    · simp [strTruthy, hs] at hu
  | none =>
    cases b with
    | none => simp [persistPhase, persistB64]
    | some t =>
      by_cases ht : t = ""
      · subst ht; simp [persistPhase, persistB64]
      · simp [strTruthy, ht] at hb

/-- When the inline payload is falsy or the save fails, the
inline-payload block falls through to the terminal empty return. -/
theorem persistB64_noSave (env : NetEnv) (i : Nat) (st : GState) (e : Extracted)
    (h : strTruthy e.base64_string = false ∨ env.saveOk i = false) :
    persistB64 env i st e = (.done (none, none), st) := by
  unfold persistB64
  cases hbs : e.base64_string with
  | none => rfl
  | some t =>
    by_cases ht : t = ""
    · simp [ht]
    · have hsv : env.saveOk i = false := by
        rcases h with h' | h'
        · rw [hbs] at h'; simp [strTruthy, ht] at h'
        · exact h'
      simp [ht, hsv]

/-- A truthy remote URL whose download answers a non-200 status falls
through to the inline-payload block. -/
theorem persistPhase_dlFail (env : NetEnv) (i : Nat) (st : GState) (e : Extracted)
    (u : String) (hu : e.image_url = some u) (hune : u ≠ "")
    (hdl : env.download i u = .badStatus) :
    persistPhase env i st e = persistB64 env i st e := by
  unfold persistPhase
  rw [hu]
  simp [hune, hdl]

/-- Reduction of one attempt whose response passes the success gate
with a dict-shaped choice and message. -/
theorem attemptStep_success (env : NetEnv) (i : Nat) (st : GState)
    (bfs cfs mfs : List (String × JVal)) (rest : List JVal)
    (hr : env.respond i = .response 200 (.obj bfs))
    (hc : jlookup bfs "choices" = some (.arr (.obj cfs :: rest)))
    (hm : (jlookup cfs "message").getD (.obj []) = .obj mfs) :
    attemptStep env i st =
      match dataFallback bfs
          (extractFromContent ((jlookup mfs "content").getD .null)) with
      | .keep e => persistPhase env i st e
      | .raiseF => (.next, st)
      | .badB64 => (.done (none, none), st) := by
  unfold attemptStep
  rw [hr]
  simp [successChoices, hc, jtruthy, hm]

/-- A failing attempt reduces to rotate-and-continue. -/
theorem attemptStep_next_of_failing (env : NetEnv) (j : Nat) (st : GState)
    (h : attemptFailing (env.respond j)) :
    attemptStep env j st = (.next, st) := by
  unfold attemptStep
  rcases h with h | h | ⟨s, b, h, hs⟩
  · rw [h]
  · rw [h]
  · rw [h]
    simp [successChoices, hs]

/-- The retry loop returns the result of the first attempt when that
attempt returns, making exactly one attempt and no rotation. -/
theorem retryLoop_done_first (env : NetEnv) (keys : List String) (N : Nat)
    (st : GState) (res : Option String × Option String) (st' : GState)
    (hk : keys ≠ []) (hN : 1 ≤ N)
    (h : attemptStep env 0 st = (.done res, st')) :
    retryLoop env keys N st = (res, st', 1, 0) := by
  obtain ⟨n, rfl⟩ : ∃ n, N = n + 1 := ⟨N - 1, by omega⟩
  have hke : keys.isEmpty = false := by
    cases keys with
    | nil => exact absurd rfl hk
    | cons a as => rfl
  unfold retryLoop retryLoopAux
  simp [hke, h]

/-- When every attempt in range continues, the loop exhausts all
remaining attempts, rotating once per attempt, and yields the null
pair. -/
theorem retryLoopAux_all_next (env : NetEnv) (keys : List String) :
    ∀ (n i : Nat) (st : GState),
      (∀ j st', i ≤ j → j < i + n → attemptStep env j st' = (.next, st')) →
      ∃ stf, retryLoopAux env keys i n st = ((none, none), stf, n, n) := by
  intro n
  induction n with
  | zero => intro i st _; exact ⟨st, rfl⟩
  | succ n ih =>
    intro i st h
    cases hk : keys.isEmpty with
    | true =>
      obtain ⟨stf, heq⟩ :=
        ih (i + 1) ⟨rotate_to_next_api_key keys st.apiKeyIndex, st.lastSaved⟩
          (fun j st' h1 h2 => h j st' (by omega) (by omega))
      refine ⟨stf, ?_⟩
      simp only [retryLoopAux, hk]
      simp [heq]
    | false =>
      have hstep := h i st (Nat.le_refl i) (by omega)
      obtain ⟨stf, heq⟩ :=
        ih (i + 1) ⟨rotate_to_next_api_key keys st.apiKeyIndex, st.lastSaved⟩
          (fun j st' h1 h2 => h j st' (by omega) (by omega))
      refine ⟨stf, ?_⟩
      simp only [retryLoopAux, hk]
      simp [hstep, heq]

/-- Appending scan inputs: the scan of a concatenation runs the first
part and, unless it broke, continues with the second on the resulting
state. -/
theorem scanContentList_append (xs ys : List JVal) (st : Extracted) :
    scanContentList (xs ++ ys) st =
      (if (scanContentList xs st).2 then scanContentList xs st
       else scanContentList ys (scanContentList xs st).1) := by
  induction xs generalizing st with
  | nil => simp [scanContentList]
  | cons item rest ih =>
    simp only [List.cons_append, scanContentList]
    cases hc : itemCandidate item with
    | none => simp [ih]
    | some cand =>
      by_cases hd : strStartsWith cand "data:image/"
      · simp only [hd, if_true]
        cases hp : parseDataUri cand with
        | some p => cases p; simp [ih]
        | none => simp [ih]
      · simp [hd]

/-- A breaking entry at the head of the scan input makes the rest of
the input irrelevant. -/
theorem scanContentList_break_cons (item : JVal) (l : List JVal) (st : Extracted)
    (hbr : itemBreaks item = true) :
    scanContentList (item :: l) st = scanContentList [item] st := by
  unfold itemBreaks at hbr
  cases hc : itemCandidate item with
  | none => rw [hc] at hbr; simp at hbr
  | some cand =>
    rw [hc] at hbr
    have hd : strStartsWith cand "data:image/" = false := by simpa using hbr
    simp [scanContentList, hc, hd]

/-- Key selection at an arbitrary cursor is list indexing at the cursor
modulo the length. -/
theorem get_next_api_key_eq (keys : List String) (i : Nat) :
    get_next_api_key keys i = keys.get? (i % keys.length) := by
  unfold get_next_api_key
  cases keys with
  | nil => simp
  | cons a as => simp

/-- Iterating the rotation advances the cursor by the iteration count,
modulo the length. -/
theorem rotate_iter_mod (keys : List String) (h : 1 < keys.length) :
    ∀ (n i : Nat),
      ((fun j => rotate_to_next_api_key keys j)^[n] i) % keys.length =
        (i + n) % keys.length := by
  intro n
  induction n with
  | zero => intro i; simp
  | succ n ih =>
    intro i
    rw [Function.iterate_succ_apply, ih]
    unfold rotate_to_next_api_key
    rw [if_pos h, Nat.mod_add_mod]
    have : i + 1 + n = i + (n + 1) := by omega
    rw [this]

/-- C3 counterexample: in a list-shaped content, entries after the
first entry whose declared type indicates an image reference do
influence the result — a second data-URI entry overwrites the format
and payload recorded from the first. -/
theorem c3_counterexample :
    extractFromContent (.arr [itemData1]) = ⟨none, "png", some "AAAA"⟩ ∧
    extractFromContent (.arr [itemData1, itemData2]) = ⟨none, "jpeg", some "BBBB"⟩ ∧
    extractFromContent (.arr [itemData1, itemData2]) ≠
      extractFromContent (.arr [itemData1]) := by
  exact ⟨by decide, by decide, by decide⟩

/-- C3 amended: the scan stops at the first entry whose candidate is a
literal (non-data-URI) URL; entries whose candidate is a data-URI are
recorded and scanning continues, so later entries can override them.
Formally, once a breaking entry is reached (with no break before it),
everything after it is irrelevant. -/
theorem c3_amended (pre post : List JVal) (item : JVal) (st : Extracted)
    (hpre : (scanContentList pre st).2 = false)
    (hbr : itemBreaks item = true) :
    scanContentList (pre ++ item :: post) st = scanContentList (pre ++ [item]) st := by
  rw [scanContentList_append, scanContentList_append, hpre]
  simp only [if_false, Bool.false_eq_true]
  exact scanContentList_break_cons item post (scanContentList pre st).1 hbr

/-- C3 witness: the amended statement at a concrete scan with a
data-URI entry, then a literal-URL entry, then a further entry. -/
theorem c3_witness :
    (scanContentList [itemData1] ⟨none, "png", none⟩).2 = false ∧
    itemBreaks itemUrl1 = true ∧
    scanContentList ([itemData1] ++ itemUrl1 :: [itemData2]) ⟨none, "png", none⟩ =
      scanContentList ([itemData1] ++ [itemUrl1]) ⟨none, "png", none⟩ := by
  exact ⟨by decide, by decide,
    c3_amended [itemData1] [itemData2] itemUrl1 ⟨none, "png", none⟩
      (by decide) (by decide)⟩

/-- C6: on a plain-string content the extractor applies, after
stripping, exactly four rules in order — literal data-URI prefix,
literal http(s) prefix, embedded data-URI search, embedded http(s)
URL search — the first matching rule determining the result, with no
image when none matches; together with the concrete examples of the
specification. -/
theorem c6_theorem :
    extractFromText "Here: https://x/y.png more text" =
      ⟨some "https://x/y.png", "png", none⟩ ∧
    extractFromText "data:image/jpeg;base64,QQ==" = ⟨none, "jpeg", some "QQ=="⟩ ∧
    extractFromText "just words, no image" = ⟨none, "png", none⟩ ∧
    (∀ s f b, strStartsWith (pyStrip s) "data:image/" = true →
      parseDataUri (pyStrip s) = some (f, b) →
      extractFromText s = ⟨none, f, some b⟩) ∧
    (∀ s, strStartsWith (pyStrip s) "data:image/" = true →
      parseDataUri (pyStrip s) = none →
      extractFromText s = ⟨none, "png", none⟩) ∧
    (∀ s, strStartsWith (pyStrip s) "data:image/" = false →
      (strStartsWith (pyStrip s) "http://" = true ∨
        strStartsWith (pyStrip s) "https://" = true) →
      extractFromText s = ⟨some (pyStrip s), "png", none⟩) ∧
    (∀ s c f b, strStartsWith (pyStrip s) "data:image/" = false →
      strStartsWith (pyStrip s) "http://" = false →
      strStartsWith (pyStrip s) "https://" = false →
      searchDataUrlS (pyStrip s) = some c →
      parseDataUri c = some (f, b) →
      extractFromText s = ⟨none, f, some b⟩) ∧
    (∀ s u, strStartsWith (pyStrip s) "data:image/" = false →
      strStartsWith (pyStrip s) "http://" = false →
      strStartsWith (pyStrip s) "https://" = false →
      searchDataUrlS (pyStrip s) = none →
      searchHttpUrlS (pyStrip s) = some u →
      extractFromText s = ⟨some u, "png", none⟩) ∧
    (∀ s, strStartsWith (pyStrip s) "data:image/" = false →
      strStartsWith (pyStrip s) "http://" = false →
      strStartsWith (pyStrip s) "https://" = false →
      searchDataUrlS (pyStrip s) = none →
      searchHttpUrlS (pyStrip s) = none →
      extractFromText s = ⟨none, "png", none⟩) := by
  refine ⟨by decide, by decide, by decide, ?_, ?_, ?_, ?_, ?_, ?_⟩
  · intro s f b h1 h2
    simp [extractFromText, h1, h2]
  · intro s h1 h2
    simp [extractFromText, h1, h2]
  · intro s h1 h2
    rcases h2 with h2 | h2 <;> simp [extractFromText, h1, h2]
  · intro s c f b h1 h2 h3 h4 h5
    simp [extractFromText, h1, h2, h3, h4, h5]
  · intro s u h1 h2 h3 h4 h5
    simp [extractFromText, h1, h2, h3, h4, h5]
  · intro s h1 h2 h3 h4 h5
    simp [extractFromText, h1, h2, h3, h4, h5]

/-- C6 witness: rule (b) applied to a padded URL string. -/
theorem c6_witness :
    strStartsWith (pyStrip "  https://img.example/a.png  ") "data:image/" = false ∧
    strStartsWith (pyStrip "  https://img.example/a.png  ") "https://" = true ∧
    extractFromText "  https://img.example/a.png  " =
      ⟨some "https://img.example/a.png", "png", none⟩ := by
  refine ⟨by decide, by decide, ?_⟩
  have h := c6_theorem.2.2.2.2.2.1 "  https://img.example/a.png  "
    (by decide) (Or.inr (by decide))
  simpa using h

/-- C7: the key rotator returns the credential at the cursor modulo the
list length (with the empty list failing), advances only when more than
one key is configured, and is cyclic: after as many advances as there
are keys, selection is unchanged. -/
theorem c7_theorem (keys : List String) (i : Nat) :
    get_next_api_key keys i = keys.get? (i % keys.length) ∧
    (keys = [] → get_next_api_key keys i = none) ∧
    (keys.length ≤ 1 → rotate_to_next_api_key keys i = i) ∧
    (1 < keys.length →
      get_next_api_key keys
          ((fun j => rotate_to_next_api_key keys j)^[keys.length] i) =
        get_next_api_key keys i) := by
  refine ⟨get_next_api_key_eq keys i, ?_, ?_, ?_⟩
  · intro h; subst h; rfl
  · intro h
    unfold rotate_to_next_api_key
    rw [if_neg]
    omega
  · intro h
    rw [get_next_api_key_eq, get_next_api_key_eq,
      rotate_iter_mod keys h keys.length i, Nat.add_mod_right]

/-- C7 witness: with two keys, two advances return to the original
selection. -/
theorem c7_witness :
    1 < (["a", "b"] : List String).length ∧
    get_next_api_key ["a", "b"]
        ((fun j => rotate_to_next_api_key ["a", "b"] j)^[(["a", "b"] : List String).length] 0) =
      get_next_api_key ["a", "b"] 0 := by
  have h7 := c7_theorem ["a", "b"] 0
  exact ⟨by decide, h7.2.2.2 (by decide)⟩

/-- C8: credential normalization maps null to the empty sequence,
splits a string on commas with trimming and empty-segment dropping,
stringifies and trims non-null list elements dropping empty results,
and always yields a sequence of non-empty strings without raising. -/
theorem c8_theorem :
    _normalize_api_keys (.strCfg "a, b,, c") = ["a", "b", "c"] ∧
    _normalize_api_keys .nullCfg = [] ∧
    _normalize_api_keys (.strCfg "") = [] ∧
    _normalize_api_keys (.listCfg []) = [] ∧
    _normalize_api_keys (.listCfg [.str "a", .num 5, .null]) = ["a", "5"] ∧
    (∀ v k, k ∈ _normalize_api_keys v → k ≠ "") := by
  refine ⟨by decide, rfl, by decide, rfl, by decide, ?_⟩
  intro v k hk
  cases v with
  | nullCfg => simp [_normalize_api_keys] at hk
  | otherCfg => simp [_normalize_api_keys] at hk
  | strCfg s =>
    simp only [_normalize_api_keys, List.mem_filter] at hk
    simpa using hk.2
  | listCfg items =>
    simp only [_normalize_api_keys, List.mem_filterMap] at hk
    obtain ⟨a, _, hfa⟩ := hk
    cases a with
    | null => simp at hfa
    | bool b =>
      simp only at hfa
      split at hfa
      · cases hfa
      · next hc => injection hfa with h2; exact h2 ▸ hc
    | num n =>
      simp only at hfa
      split at hfa
      · cases hfa
      · next hc => injection hfa with h2; exact h2 ▸ hc
    | str s =>
      simp only at hfa
      split at hfa
      · cases hfa
      · next hc => injection hfa with h2; exact h2 ▸ hc
    | arr xs =>
      simp only at hfa
      split at hfa
      · cases hfa
      · next hc => injection hfa with h2; exact h2 ▸ hc
    | obj fs =>
      simp only at hfa
      split at hfa
      · cases hfa
      · next hc => injection hfa with h2; exact h2 ▸ hc

/-- C8 witness: the membership conjunct applied to a concrete
normalized configuration. -/
theorem c8_witness :
    "a" ∈ _normalize_api_keys (.strCfg "a,b") ∧ "a" ≠ "" := by
  exact ⟨by decide, c8_theorem.2.2.2.2.2 (.strCfg "a,b") "a" (by decide)⟩

/-- C9: the format-A builder yields the plain instruction string (which
embeds the prompt after a fixed instruction) when there are no
reference images; with reference images it yields the ordered list of
the instruction text followed by one image entry per reference image,
prefixing `data:image/png;base64,` onto any payload that lacks a
data-URI prefix. -/
theorem c9_theorem :
    (∀ prompt, content_fieldA prompt [] = .str (instructionText prompt)) ∧
    (∀ prompt, instructionText prompt = instrPrefix ++ prompt) ∧
    (∀ prompt imgs, imgs ≠ [] →
      content_fieldA prompt imgs =
        .list (.text (instructionText prompt) ::
          imgs.map (fun b => .imageUrl (mimeWrap b)))) ∧
    (∀ b, strStartsWith b "data:image/" = false →
      mimeWrap b = "data:image/png;base64," ++ b) ∧
    (∀ prompt model imgs,
      buildRequestPayload "openai" prompt model imgs =
        .chatMessages model (content_fieldA prompt imgs)) := by
  refine ⟨?_, fun _ => rfl, ?_, ?_, ?_⟩
  · intro prompt
    simp [content_fieldA, buildMessageContentA]
  · intro prompt imgs h
    cases imgs with
    | nil => exact absurd rfl h
    | cons x xs => simp [content_fieldA, buildMessageContentA]
  · intro b h
    simp [mimeWrap, h]
  · intro prompt model imgs
    simp [buildRequestPayload]

/-- C9 witness: one reference image lacking a data-URI prefix gets the
MIME prefix, and the content becomes the two-entry list. -/
theorem c9_witness :
    (["QQ=="] : List String) ≠ [] ∧
    strStartsWith "QQ==" "data:image/" = false ∧
    content_fieldA "a cat" ["QQ=="] =
      .list [.text (instructionText "a cat"),
        .imageUrl "data:image/png;base64,QQ=="] ∧
    mimeWrap "QQ==" = "data:image/png;base64," ++ "QQ==" := by
  refine ⟨by decide, by decide, ?_, c9_theorem.2.2.2.1 "QQ==" (by decide)⟩
  have h := c9_theorem.2.2.1 "a cat" ["QQ=="] (by decide)
  rw [h]
  decide

/-- C10: a failing `save_base64_image` (directory, decode or write
failure) returns false and leaves the shared Saved Image Record
unchanged; the record changes only when every step up to and including
the byte write succeeded. -/
theorem c10_theorem (env : SaveEnv) (st : Option String × Option String) :
    ((save_base64_image env st).1 = false → (save_base64_image env st).2 = st) ∧
    ((save_base64_image env st).2 ≠ st →
      (save_base64_image env st).1 = true ∧ env.mkdirOk = true ∧
        env.decodeOk = true ∧ env.writeOk = true) := by
  obtain ⟨m, d, w, r⟩ := env
  cases m <;> cases d <;> cases w <;> simp [save_base64_image]

/-- C10 witness: a decode failure returns false and preserves the
record. -/
theorem c10_witness :
    (save_base64_image saveEnvDecodeFail (none, none)).1 = false ∧
    (save_base64_image saveEnvDecodeFail (none, none)).2 = (none, none) := by
  exact ⟨by decide, (c10_theorem saveEnvDecodeFail (none, none)).1 (by decide)⟩

/-- C1 counterexample: with three attempts allowed and two keys, a 200
response whose image persistence fails — download answering non-200
(first scenario) or base64 save failing (second scenario) — makes the
call return (null, null) after exactly one attempt and zero rotations:
the loop does not continue to a second attempt. -/
theorem c1_counterexample :
    retryLoop envDlFail ["k1", "k2"] 3 st0 = ((none, none), st0, 1, 0) ∧
    retryLoop envSaveFail ["k1", "k2"] 3 st0 = ((none, none), st0, 1, 0) := by
  exact ⟨by decide, by decide⟩

/-- C1 amended: when a 200 response yields an image reference but
persisting it fails (the remote-URL download returns a non-200 status
while the inline payload is absent or its save fails), the failure is
logged and execution falls through to the no-image outcome of that same
attempt, so the call returns (null, null) immediately — one attempt, no
further retry, no rotation. -/
theorem c1_amended (env : NetEnv) (keys : List String) (N : Nat) (st : GState)
    (bfs cfs mfs : List (String × JVal)) (rest : List JVal) (e : Extracted)
    (u : String)
    (hk : keys ≠ []) (hN : 1 ≤ N)
    (hr : env.respond 0 = .response 200 (.obj bfs))
    (hc : jlookup bfs "choices" = some (.arr (.obj cfs :: rest)))
    (hm : (jlookup cfs "message").getD (.obj []) = .obj mfs)
    (hf : dataFallback bfs
        (extractFromContent ((jlookup mfs "content").getD .null)) = .keep e)
    (hu : e.image_url = some u) (hune : u ≠ "")
    (hdl : env.download 0 u = .badStatus)
    (hb : strTruthy e.base64_string = false ∨ env.saveOk 0 = false) :
    retryLoop env keys N st = ((none, none), st, 1, 0) := by
  have hstep : attemptStep env 0 st = (.done (none, none), st) := by
    rw [attemptStep_success env 0 st bfs cfs mfs rest hr hc hm, hf]
    show persistPhase env 0 st e = (.done (none, none), st)
    rw [persistPhase_dlFail env 0 st e u hu hune hdl]
    exact persistB64_noSave env 0 st e hb
  exact retryLoop_done_first env keys N st (none, none) st hk hN hstep

/-- C1 witness: the amended statement on the concrete download-failure
environment. -/
theorem c1_witness :
    envDlFail.respond 0 = .response 200 (.obj bfsUrl) ∧
    envDlFail.download 0 "https://example.com/cat.png" = .badStatus ∧
    retryLoop envDlFail ["k1", "k2"] 4 st0 = ((none, none), st0, 1, 0) := by
  refine ⟨rfl, rfl, ?_⟩
  exact c1_amended envDlFail ["k1", "k2"] 4 st0 bfsUrl cfsUrl mfsUrl []
    ⟨some "https://example.com/cat.png", "png", none⟩ "https://example.com/cat.png"
    (by decide) (by omega) rfl rfl rfl rfl rfl (by decide) rfl (Or.inl (by decide))

/-- C2 counterexample: in the contents-style mode the request body is
the format-B shape, yet a 200 response whose body contains a non-empty
candidates list (and no choices list) is not parsed for an image: both
attempts of a two-attempt run are classified as provider errors, with a
rotation each, ending in (null, null). -/
theorem c2_counterexample :
    buildRequestPayload "gemini" "a cat" "gemini-2" [] =
      .geminiContents "gemini-2" [.text "a cat"] ∧
    jtruthy (.arr [.obj []]) = true ∧
    successChoices 200 (.obj bfsCand) = none ∧
    retryLoop envCand ["k"] 2 st0 = ((none, none), st0, 2, 2) := by
  exact ⟨by decide, by decide, rfl, by decide⟩

/-- C2 amended: the provider mode selects the request body shape, but
the response parsing is mode-independent: the success gate requires a
non-empty choices list, so a 200 body carrying only a candidates list
is classified as a provider error — every such attempt rotates the key
and the run ends in (null, null). -/
theorem c2_amended :
    (∀ prompt model imgs,
      buildRequestPayload "gemini" prompt model imgs =
        .geminiContents model (buildPartsB prompt imgs)) ∧
    (∀ prompt model imgs,
      buildRequestPayload "openai" prompt model imgs =
        .chatMessages model (content_fieldA prompt imgs)) ∧
    (∀ s fs, jlookup fs "choices" = none → successChoices s (.obj fs) = none) ∧
    (∀ (env : NetEnv) (keys : List String) (N : Nat) (st : GState),
      keys ≠ [] →
      (∀ i, i < N → ∃ fs, env.respond i = .response 200 (.obj fs) ∧
        jlookup fs "choices" = none) →
      (retryLoop env keys N st).1 = (none, none) ∧
      (retryLoop env keys N st).2.2 = (N, N)) := by
  refine ⟨?_, ?_, ?_, ?_⟩
  · intro prompt model imgs
    simp [buildRequestPayload]
  · intro prompt model imgs
    simp [buildRequestPayload]
  · intro s fs h
    unfold successChoices
    by_cases hs : s = 200
    · subst hs; simp [h]
    · simp [hs]
  · intro env keys N st _hk h
    have hnext : ∀ j st', 0 ≤ j → j < 0 + N → attemptStep env j st' = (.next, st') := by
      intro j st' _ hj
      obtain ⟨fs, hr, hcn⟩ := h j (by omega)
      unfold attemptStep
      rw [hr]
      simp [successChoices, hcn]
    obtain ⟨stf, heq⟩ := retryLoopAux_all_next env keys N 0 st hnext
    unfold retryLoop
    rw [heq]
    exact ⟨rfl, rfl⟩

/-- C2 witness: the loop conjunct of the amended statement on the
concrete candidates-only environment. -/
theorem c2_witness :
    (["k"] : List String) ≠ [] ∧
    (retryLoop envCand ["k"] 2 st0).1 = (none, none) ∧
    (retryLoop envCand ["k"] 2 st0).2.2 = (2, 2) := by
  refine ⟨by decide, ?_, ?_⟩
  · exact (c2_amended.2.2.2 envCand ["k"] 2 st0 (by decide)
      (fun i _ => ⟨bfsCand, rfl, rfl⟩)).1
  · exact (c2_amended.2.2.2 envCand ["k"] 2 st0 (by decide)
      (fun i _ => ⟨bfsCand, rfl, rfl⟩)).2

/-- C4: a well-formed 200 response (non-empty choices) in which the
extractor finds neither a remote URL nor inline data — the data[0]
fallback included — makes the call return (null, null) after that
single attempt, with no further retry and no rotation. -/
theorem c4_theorem (env : NetEnv) (keys : List String) (N : Nat) (st : GState)
    (bfs cfs mfs : List (String × JVal)) (rest : List JVal) (e : Extracted)
    (hk : keys ≠ []) (hN : 1 ≤ N)
    (hr : env.respond 0 = .response 200 (.obj bfs))
    (hc : jlookup bfs "choices" = some (.arr (.obj cfs :: rest)))
    (hm : (jlookup cfs "message").getD (.obj []) = .obj mfs)
    (hf : dataFallback bfs
        (extractFromContent ((jlookup mfs "content").getD .null)) = .keep e)
    (hu : strTruthy e.image_url = false)
    (hb : strTruthy e.base64_string = false) :
    retryLoop env keys N st = ((none, none), st, 1, 0) := by
  have hstep : attemptStep env 0 st = (.done (none, none), st) := by
    rw [attemptStep_success env 0 st bfs cfs mfs rest hr hc hm, hf]
    exact persistPhase_noImage env 0 st e hu hb
  exact retryLoop_done_first env keys N st (none, none) st hk hN hstep

/-- C4 witness: a 200 response whose content carries no image pattern,
run with three allowed attempts, returns after exactly one attempt with
no rotation. -/
theorem c4_witness :
    envEmpty.respond 0 = .response 200 (.obj bfsEmpty) ∧
    retryLoop envEmpty ["k"] 3 st0 = ((none, none), st0, 1, 0) := by
  refine ⟨rfl, ?_⟩
  exact c4_theorem envEmpty ["k"] 3 st0 bfsEmpty cfsEmpty mfsEmpty []
    ⟨none, "png", none⟩ (by decide) (by omega) rfl rfl rfl rfl (by decide) (by decide)

/-- C5: when every attempt fails (non-200 status, network error or
unexpected exception) and the key set is non-empty, the generation
client makes exactly N attempts, rotates exactly N times — once per
failed attempt, the last included — and returns (null, null). -/
theorem c5_theorem (env : NetEnv) (api_key : ApiKeyArg) (N : Nat) (st : GState)
    (prompt model : String) (input_images : List String)
    (api_base api_format : Option String)
    (hk : normalizeApiKeyArg api_key ≠ [])
    (hfail : ∀ i, i < N → attemptFailing (env.respond i)) :
    (generate_image_openai env prompt api_key model input_images api_base
        api_format N st).1 = (none, none) ∧
    (generate_image_openai env prompt api_key model input_images api_base
        api_format N st).2.2 = (N, N) := by
  have hke : (normalizeApiKeyArg api_key).isEmpty = false := by
    cases hl : normalizeApiKeyArg api_key with
    | nil => exact absurd hl hk
    | cons a as => rfl
  have hnext : ∀ j st', 0 ≤ j → j < 0 + N → attemptStep env j st' = (.next, st') := by
    intro j st' _ hj
    exact attemptStep_next_of_failing env j st' (hfail j (by omega))
  obtain ⟨stf, heq⟩ :=
    retryLoopAux_all_next env (normalizeApiKeyArg api_key) N 0 st hnext
  unfold generate_image_openai retryLoop
  simp only [hke, Bool.false_eq_true, if_false]
  rw [heq]
  exact ⟨rfl, rfl⟩

/-- C5 witness: a provider answering 500 on every attempt, two keys and
three allowed attempts: three attempts, three rotations, null result. -/
theorem c5_witness :
    normalizeApiKeyArg (.list [.str "k1", .str "k2"]) ≠ [] ∧
    (generate_image_openai env500 "a cat" (.list [.str "k1", .str "k2"])
        "gpt-image-1" [] none none 3 st0).1 = (none, none) ∧
    (generate_image_openai env500 "a cat" (.list [.str "k1", .str "k2"])
        "gpt-image-1" [] none none 3 st0).2.2 = (3, 3) := by
  refine ⟨by decide, ?_, ?_⟩
  · exact (c5_theorem env500 (.list [.str "k1", .str "k2"]) 3 st0 "a cat"
      "gpt-image-1" [] none none (by decide)
      (fun i _ => Or.inr (Or.inr ⟨500, .obj [], rfl, by decide⟩))).1
  · exact (c5_theorem env500 (.list [.str "k1", .str "k2"]) 3 st0 "a cat"
      "gpt-image-1" [] none none (by decide)
      (fun i _ => Or.inr (Or.inr ⟨500, .obj [], rfl, by decide⟩))).2
